import Mathlib

/-!
Shallow embedding of the shares extension of python-cinderclient
(`cinderclient/v2/contrib/shares.py`, `cinderclient/v2/contrib/share_snapshots.py`,
`tests/v1/contrib/shares/fakes.py`) together with proofs of the specified
properties of its access-rule validator, manager layer and action-dispatch
protocol.

Python exceptions are modelled by an `Except PyExc` result; Python 2 byte
strings by lists of characters (wrapped in `String` at the API boundary);
dictionaries whose construction order is fixed by the source by association
lists.  All definitions are structurally recursive so that concrete runs
reduce inside the kernel.
-/

/-- Python exceptions raised (or potentially raised) by the embedded code:
`CommandError` (the spec's `InvalidArgument`), `ValueError` from `int()`,
`AssertionError` from `assert` / `raise AssertionError(msg)`, and
`AttributeError` from attribute access on `None`. -/
inductive PyExc where
  | commandError (msg : String)
  | valueError
  | assertionError (msg : Option String)
  | attributeError
deriving DecidableEq, Repr

instance : DecidableEq (Except PyExc Unit) := fun a b =>
  match a, b with
  | .ok (), .ok () => isTrue rfl
  | .ok (), .error _ => isFalse (by simp)
  | .error _, .ok () => isFalse (by simp)
  | .error e, .error f =>
      if h : e = f then isTrue (by rw [h]) else isFalse (by simp [h])

/-- Python `s.split(sep)` for a one-character separator, on character lists:
splits at every occurrence of `sep`, keeping empty pieces, and yields one
piece (possibly empty) more than the number of separators. -/
def pySplit (sep : Char) : List Char → List (List Char)
  | [] => [[]]
  | c :: rest =>
      if c = sep then [] :: pySplit sep rest
      else
        match pySplit sep rest with
        | [] => [[c]]
        | piece :: pieces => (c :: piece) :: pieces

/-- Whitespace characters stripped by Python's `int(str)` conversion. -/
def pyIsSpace (c : Char) : Bool :=
  c = ' ' || c = '\t' || c = '\n' || c = '\r' || c = '\x0b' || c = '\x0c'

/-- ASCII decimal digit. -/
def pyIsDigit (c : Char) : Bool :=
  '0' ≤ c && c ≤ '9'

/-- Value of a nonempty all-digit character list, base 10; `none` otherwise. -/
def pyDigitsToNat (l : List Char) : Option Nat :=
  if l ≠ [] && l.all pyIsDigit then
    some (l.foldl (fun a c => 10 * a + (c.toNat - '0'.toNat)) 0)
  else none

/-- Sign-and-digits core of Python `int(str)` after whitespace stripping. -/
def pyIntCore (l : List Char) : Option Int :=
  match l with
  | '+' :: rest => (pyDigitsToNat rest).map (fun n => (n : Int))
  | '-' :: rest => (pyDigitsToNat rest).map (fun n => -(n : Int))
  | rest => (pyDigitsToNat rest).map (fun n => (n : Int))

/-- Python `int(s)`: strip surrounding whitespace, optional sign, base-10
digits; `none` models the `ValueError` raise. -/
def pyIntOfChars (l : List Char) : Option Int :=
  pyIntCore (((l.dropWhile pyIsSpace).reverse.dropWhile pyIsSpace).reverse)

/-- Python `int(s)` as an exception-raising conversion. -/
def pyInt (l : List Char) : Except PyExc Int :=
  match pyIntOfChars l with
  | some n => .ok n
  | none => .error .valueError

/-- The error message of `Share._validate_ip_range`. -/
def ip_exc_str : String :=
  "Supported ip format examples:\n\t10.0.0.2, 10.0.0.*, 10.0.0.0/24"

/-- The error message of `Share._validate_username`. -/
def username_exc_str : String :=
  "Invalid user name. Must be alphanum 4-32 chars long"

/-- The error message of `Share._validate_access` for unsupported types. -/
def access_type_exc_str : String :=
  "Only ip and passwd type are supported"

/-- Body of the `try` block of the loop in `Share._validate_ip_range`:
`int(item)` then `if 0 <= int(item) <= 255: continue` else `raise ValueError`. -/
def checkSegTry (item : List Char) : Except PyExc Unit := do
  let n ← pyInt item
  if 0 ≤ n ∧ n ≤ 255 then pure () else .error .valueError

/-- One iteration of the loop in `Share._validate_ip_range`: the `try` body
with its `except ValueError` handler, which re-raises `CommandError` unless
the wildcard is allowed and the segment is `*`. -/
def checkSegment (allowAsterisk : Bool) (item : List Char) : Except PyExc Unit :=
  match checkSegTry item with
  | .ok _ => .ok ()
  | .error .valueError =>
      if !(allowAsterisk && item == ['*']) then .error (.commandError ip_exc_str)
      else .ok ()
  | .error e => .error e

/-- The `for item in ip_range` loop of `Share._validate_ip_range`. -/
def checkSegments (allowAsterisk : Bool) : List (List Char) → Except PyExc Unit
  | [] => .ok ()
  | item :: rest => do
      checkSegment allowAsterisk item
      checkSegments allowAsterisk rest

/-- `Share._validate_ip_range` (v2/contrib/shares.py lines 66-84). -/
def validate_ip_range (ip_range : String) : Except PyExc Unit :=
  let parts := pySplit '/' ip_range.toList
  if parts.length > 2 then .error (.commandError ip_exc_str)
  else
    let allow_asterisk : Bool := parts.length == 1
    let segs := pySplit '.' parts.headI
    if segs.length ≠ 4 then .error (.commandError ip_exc_str)
    else checkSegments allow_asterisk segs

/-- Python `\w` character class (no re.UNICODE / re.LOCALE flags). -/
def isWordChar (c : Char) : Bool :=
  ('a' ≤ c && c ≤ 'z') || ('A' ≤ c && c ≤ 'Z') || ('0' ≤ c && c ≤ '9') || c = '_'

/-- `re.match` of the single bounded repetition `p{lo,hi}` anchored at the
start of `s` with empty continuation: the greedy repetition can match any
count in `[lo, hi]` not exceeding the leading run of `p`-characters, so
matching succeeds exactly when `lo ≤ min run hi`. -/
def reMatchRepeat (p : Char → Bool) (lo hi : Nat) (s : String) : Bool :=
  decide (lo ≤ min ((s.toList.takeWhile p).length) hi)

/-- `Share._validate_username` (v2/contrib/shares.py lines 58-64):
`re.match('\w{4,32}', username)`. -/
def validate_username (access : String) : Except PyExc Unit :=
  if !(reMatchRepeat isWordChar 4 32 access) then
    .error (.commandError username_exc_str)
  else .ok ()

/-- `Share._validate_access` (v2/contrib/shares.py lines 49-56). -/
def validate_access (access_type access : String) : Except PyExc Unit :=
  if access_type = "ip" then validate_ip_range access
  else if access_type = "passwd" then validate_username access
  else .error (.commandError access_type_exc_str)

/-- One IP segment is an in-range integer: `int(item)` succeeds and the value
lies in `[0, 255]`. -/
def isOctetB (item : List Char) : Bool :=
  match pyIntOfChars item with
  | some n => decide (0 ≤ n) && decide (n ≤ 255)
  | none => false

/-- The claimed characterization of IP-range validation, written from the
spec's words: at most one `/`; the part before the first `/` splits on `.`
into exactly 4 segments; each segment is an integer in `[0,255]`, or is the
literal `*` when the input had no `/` (a single split part). -/
def ipRangeValidSpec (s : String) : Bool :=
  let parts := pySplit '/' s.toList
  let segs := pySplit '.' parts.headI
  decide (parts.length ≤ 2) && (segs.length == 4) &&
    segs.all (fun seg => isOctetB seg || ((parts.length == 1) && seg == ['*']))

/-- The claimed characterization of username validation, written from the
spec's words: at least 4 characters and the first 4 are word characters. -/
def usernameValidSpec (s : String) : Bool :=
  decide (4 ≤ s.length) && (s.toList.take 4).all isWordChar

theorem checkSegment_eq (a : Bool) (item : List Char) :
    checkSegment a item =
      if isOctetB item || (a && item == ['*']) then .ok ()
      else .error (.commandError ip_exc_str) := by
  unfold checkSegment checkSegTry pyInt isOctetB
  cases h : pyIntOfChars item with
  | none =>
      cases hb : (a && item == ['*']) <;>
        simp [h, Bind.bind, Except.bind, hb]
  | some n =>
      by_cases hn : 0 ≤ n ∧ n ≤ 255
      · simp [h, Bind.bind, Except.bind, hn, pure, Except.pure]
      · cases hb : (a && item == ['*']) <;>
          simp [h, Bind.bind, Except.bind, hn, hb]

theorem checkSegments_eq (a : Bool) (l : List (List Char)) :
    checkSegments a l =
      if l.all (fun item => isOctetB item || (a && item == ['*'])) then .ok ()
      else .error (.commandError ip_exc_str) := by
  induction l with
  | nil => simp [checkSegments]
  | cons item rest ih =>
      rw [checkSegments, checkSegment_eq]
      by_cases hi : (isOctetB item || (a && item == ['*'])) = true <;>
        simp [hi, Bind.bind, Except.bind, ih]

theorem validate_ip_range_eq (s : String) :
    validate_ip_range s =
      if ipRangeValidSpec s then .ok () else .error (.commandError ip_exc_str) := by
  unfold validate_ip_range ipRangeValidSpec
  generalize s.toList = l
  by_cases h1 : (pySplit '/' l).length > 2
  · simp [h1, Nat.not_le.mpr h1]
  · by_cases h2 : (pySplit '.' (pySplit '/' l).headI).length = 4
    · simp [h1, h2, checkSegments_eq, Nat.not_lt.mp h1]
    · simp [h1, h2]

theorem le_length_takeWhile_iff (p : Char → Bool) (n : Nat) (l : List Char) :
    (n ≤ (l.takeWhile p).length) ↔ (n ≤ l.length ∧ (l.take n).all p) := by
  induction l generalizing n with
  | nil => simp
  | cons c l ih =>
      cases n with
      | zero => simp
      | succ m =>
          by_cases hp : p c = true
          · simp [List.takeWhile_cons, hp, Nat.succ_le_succ_iff, ih m]
          · simp [List.takeWhile_cons, hp]

theorem reMatch_eq_spec (s : String) :
    reMatchRepeat isWordChar 4 32 s = usernameValidSpec s := by
  unfold reMatchRepeat usernameValidSpec
  rw [Bool.eq_iff_iff]
  simp only [decide_eq_true_eq, Bool.and_eq_true, le_min_iff,
    le_length_takeWhile_iff, List.all_eq_true]
  exact ⟨fun h => ⟨h.1.1, h.1.2⟩, fun h => ⟨⟨h.1, h.2⟩, by norm_num⟩⟩

theorem validate_username_eq (s : String) :
    validate_username s =
      if usernameValidSpec s then .ok () else .error (.commandError username_exc_str) := by
  unfold validate_username
  rw [reMatch_eq_spec]
  cases hb : usernameValidSpec s <;> simp [hb]

/-- A flat JSON-like record: string keys to string values, in construction
order. -/
abbrev Payload := List (String × String)

/-- An action-dispatch body, the dict `{action: info}` built by
`ShareManager._action`: a single-key association from action name to a
payload object or null (Python `None`). -/
abbrev ActionBody := List (String × Option Payload)

/-- An HTTP request as handed by a manager to the injected REST client. -/
structure HttpRequest where
  method : String
  path : String
  body : ActionBody
deriving DecidableEq, Repr

/-- `Manager.run_hooks('modify_body_for_action', body)`: the registered
body-mutation hooks of this operation kind, applied in registration order;
with no hook registered the body is left unchanged. -/
def run_hooks (hooks : List (ActionBody → ActionBody)) (body : ActionBody) : ActionBody :=
  hooks.foldl (fun b h => h b) body

/-- `ShareManager._action` (v2/contrib/shares.py lines 174-179): build the
single-key body `{action: info}`, run the body-mutation hooks, and POST to
`/shares/<id>/action`.  The modelled value is the request handed to
`self.api.client.post`. -/
def manager_action (hooks : List (ActionBody → ActionBody))
    (actionName shareId : String) (info : Option Payload) : HttpRequest :=
  let body : ActionBody := [(actionName, info)]
  let body := run_hooks hooks body
  { method := "POST", path := "/shares/" ++ shareId ++ "/action", body := body }

/-- `ShareManager.allow` (lines 146-154). -/
def manager_allow (hooks : List (ActionBody → ActionBody))
    (shareId access_type access : String) : HttpRequest :=
  manager_action hooks "os-allow_access" shareId
    (some [("access_type", access_type), ("access_to", access)])

/-- `ShareManager.deny` (lines 156-163). -/
def manager_deny (hooks : List (ActionBody → ActionBody))
    (shareId accessId : String) : HttpRequest :=
  manager_action hooks "os-deny_access" shareId (some [("access_id", accessId)])

/-- The request issued by `ShareManager.access_list` (lines 165-172). -/
def manager_access_list_req (hooks : List (ActionBody → ActionBody))
    (shareId : String) : HttpRequest :=
  manager_action hooks "os-access_list" shareId none

/-- `Share.allow` (lines 36-39): run `_validate_access` first; on success
delegate to `manager.allow`.  The result pairs the list of HTTP requests
issued with the outcome (the propagated exception, if any); a raised
validation error short-circuits before the manager is invoked. -/
def share_allow (hooks : List (ActionBody → ActionBody))
    (shareId access_type access : String) :
    List HttpRequest × Except PyExc Unit :=
  match validate_access access_type access with
  | .error e => ([], .error e)
  | .ok () => ([manager_allow hooks shareId access_type access], .ok ())

/-- The decoding step of `ShareManager.access_list` (lines 165-172): given
the `access_list` array of the response body, build
`namedtuple('Access', access_list[0].keys())` instances from each element's
values (`t(*value.values())`); an empty array gives the empty list. -/
def access_list_decode (al : List Payload) : List Payload :=
  if al ≠ [] then
    let fieldNames := al.headI.map Prod.fst
    al.map (fun value => fieldNames.zip (value.map Prod.snd))
  else []

/-- The effective `FakeHTTPClient.post_shares_1234_action`
(tests/v1/contrib/shares/fakes.py lines 65-78; the later of the two
definitions in the class body, which under Python's class construction
shadows the earlier one).  Asserts the body has exactly one key, recognizes
`os-allow_access` / `os-access_deny` / `os-access_list` with their expected
payload shapes, and raises `AssertionError("Unexpected share action: ...")`
for any other action key. -/
def post_shares_1234_action (body : ActionBody) : Except PyExc (Nat × Option Payload) :=
  if body.length ≠ 1 then .error (.assertionError none)
  else
    let action := body.headI.1
    if action = "os-allow_access" then
      match body.headI.2 with
      | some p =>
          if p.map Prod.fst = ["access_type", "access_to"] then .ok (202, none)
          else .error (.assertionError none)
      | none => .error .attributeError
    else if action = "os-access_deny" then
      match body.headI.2 with
      | some p =>
          if p.map Prod.fst = ["access_id"] then .ok (202, none)
          else .error (.assertionError none)
      | none => .error .attributeError
    else if action = "os-access_list" then
      match body.headI.2 with
      | none => .ok (202, none)
      | some _ => .error (.assertionError none)
    else .error (.assertionError (some ("Unexpected share action: " ++ action)))

/-- Values a query filter can take, with Python truthiness. -/
inductive PyVal where
  | none
  | str (s : String)
  | int (n : Int)
deriving DecidableEq, Repr

/-- Python truthiness: `None`, `''` and `0` are falsy. -/
def pyTruthy : PyVal → Bool
  | .none => false
  | .str s => s ≠ ""
  | .int n => n ≠ 0

/-- Python `str()` of a filter value, as serialized by `urlencode`. -/
def pyStr : PyVal → String
  | .none => "None"
  | .str s => s
  | .int n => toString n

/-- Characters never quoted by Python 2 `urllib` (its `always_safe`). -/
def alwaysSafeChar (c : Char) : Bool :=
  ('a' ≤ c && c ≤ 'z') || ('A' ≤ c && c ≤ 'Z') || ('0' ≤ c && c ≤ '9') ||
    c = '_' || c = '.' || c = '-'

/-- Uppercase hexadecimal digit for `n < 16`. -/
def hexDigitChar (n : Nat) : Char :=
  if n < 10 then Char.ofNat ('0'.toNat + n) else Char.ofNat ('A'.toNat + (n - 10))

/-- UTF-8 bytes of one character (for ASCII, the single byte itself). -/
def utf8BytesOfChar (c : Char) : List Nat :=
  let n := c.toNat
  if n < 0x80 then [n]
  else if n < 0x800 then [0xC0 + n / 0x40, 0x80 + n % 0x40]
  else if n < 0x10000 then
    [0xE0 + n / 0x1000, 0x80 + n / 0x40 % 0x40, 0x80 + n % 0x40]
  else
    [0xF0 + n / 0x40000, 0x80 + n / 0x1000 % 0x40, 0x80 + n / 0x40 % 0x40,
      0x80 + n % 0x40]

/-- `%XX` escape of one byte. -/
def percentEncodeByte (n : Nat) : String :=
  String.mk ['%', hexDigitChar (n / 16 % 16), hexDigitChar (n % 16)]

/-- One character under Python 2 `urllib.quote_plus`. -/
def quotePlusChar (c : Char) : String :=
  if c = ' ' then "+"
  else if alwaysSafeChar c then String.singleton c
  else String.join ((utf8BytesOfChar c).map percentEncodeByte)

/-- Python 2 `urllib.quote_plus` with its default safe set. -/
def quote_plus (s : String) : String :=
  String.join (s.toList.map quotePlusChar)

/-- Python 2 `urllib.urlencode` over a list of key/value pairs. -/
def urlencode (pairs : List (String × PyVal)) : String :=
  String.intercalate "&"
    (pairs.map (fun kv => quote_plus kv.1 ++ "=" ++ quote_plus (pyStr kv.2)))

/-- The query-string construction shared verbatim by `ShareManager.list`
(v2/contrib/shares.py lines 117-137) and `SnapshotManager.list`
(v2/contrib/share_snapshots.py lines 64-84): `if search_opts:` (both `None`
and an empty dict are falsy), keep only the pairs whose value is truthy,
urlencode them, and prefix `?` when the encoded string is nonempty. -/
def build_query_string (search_opts : Option (List (String × PyVal))) : String :=
  match search_opts with
  | some opts =>
      if opts.length ≠ 0 then
        let qs := urlencode (opts.filter (fun kv => pyTruthy kv.2))
        if qs ≠ "" then "?" ++ qs else qs
      else ""
  | none => ""

/-- The path requested by `ShareManager.list`. -/
def shares_list_path (detailed : Bool)
    (search_opts : Option (List (String × PyVal))) : String :=
  let query_string := build_query_string search_opts
  if detailed then "/shares/detail" ++ query_string
  else "/shares" ++ query_string

/-- The path requested by `SnapshotManager.list`. -/
def share_snapshots_list_path (detailed : Bool)
    (search_opts : Option (List (String × PyVal))) : String :=
  let query_string := build_query_string search_opts
  if detailed then "/share-snapshots/detail" ++ query_string
  else "/share-snapshots" ++ query_string

theorem filter_truthy_idem (l : List (String × PyVal)) :
    (l.filter (fun kv => pyTruthy kv.2)).filter (fun kv => pyTruthy kv.2) =
      l.filter (fun kv => pyTruthy kv.2) := by
  induction l with
  | nil => rfl
  | cons x xs ih =>
      cases hp : pyTruthy x.2 <;> simp [List.filter_cons, hp, ih]

theorem build_query_string_drops_falsy (opts : List (String × PyVal)) :
    build_query_string (some opts) =
      build_query_string (some (opts.filter (fun kv => pyTruthy kv.2))) := by
  simp only [build_query_string]
  cases hf : opts.filter (fun kv => pyTruthy kv.2) with
  | nil =>
      by_cases ho : opts.length = 0
      · simp [ho]
      · simp only [ho, ne_eq, not_false_iff, if_true, hf]
        rfl
  | cons x xs =>
      have hne : opts ≠ [] := fun h => by simp [h] at hf
      have hlen : opts.length ≠ 0 := by
        simpa [List.length_eq_zero] using hne
      have hff : (x :: xs).filter (fun kv => pyTruthy kv.2) = x :: xs := by
        rw [← hf, filter_truthy_idem]
      rw [if_pos hlen, if_pos (show ((x :: xs).length ≠ 0) by simp), hff]

theorem zip_map_fst_snd {α β : Type} (l : List (α × β)) :
    (l.map Prod.fst).zip (l.map Prod.snd) = l := by
  induction l with
  | nil => rfl
  | cons x xs ih => simp [ih]

/-- C1: IP-range validation succeeds exactly when the input splits on `/`
into at most two parts, the address part splits on `.` into exactly 4
segments, and every segment is an integer in `[0,255]` or is the literal `*`
while no `/` is present (a single split part); in every other case it fails
with the `CommandError` (InvalidArgument) carrying the example-format hint. -/
theorem C1_ip_range_validation (s : String) :
    validate_ip_range s =
      if ipRangeValidSpec s then .ok () else .error (.commandError ip_exc_str) :=
  validate_ip_range_eq s

/-- C2: `Share.allow` runs the validator first; when validation raises, the
raised error propagates and no HTTP request is issued (the manager's allow
and the action POST never run).  In particular accessType `ip` with
accessValue `10.0.0.*/24` fails locally with zero requests. -/
theorem C2_share_allow_short_circuit :
    (∀ (hooks : List (ActionBody → ActionBody)) (shareId t v : String) (e : PyExc),
        validate_access t v = .error e →
          share_allow hooks shareId t v = ([], .error e))
    ∧ ∀ (hooks : List (ActionBody → ActionBody)) (shareId : String),
        share_allow hooks shareId "ip" "10.0.0.*/24" =
          ([], .error (.commandError ip_exc_str)) := by
  constructor
  · intro hooks shareId t v e h
    unfold share_allow
    rw [h]
  · intro hooks shareId
    rfl

/-- C2 witness: the validator rejects `10.0.0.*/24`, and `Share.allow` on it
issues zero HTTP requests. -/
theorem C2_share_allow_short_circuit_witness :
    share_allow [] "1234" "ip" "10.0.0.*/24" =
      ([], .error (.commandError ip_exc_str)) :=
  C2_share_allow_short_circuit.1 [] "1234" "ip" "10.0.0.*/24"
    (.commandError ip_exc_str) (by decide)

/-- C3 counterexample: the claim fails on the code.  The public `deny`
operation sends the body key `os-deny_access`, which the action-dispatch
endpoint does not recognize, so the unknown-action `AssertionError` branch is
taken. -/
theorem C3_deny_hits_assertion :
    post_shares_1234_action (manager_deny [] "1234" "fake_id").body =
      .error (.assertionError (some "Unexpected share action: os-deny_access")) :=
  rfl

/-- C3 amended: the unknown-action assertion branch is unreachable through
`allow` and `access_list`, whose body keys the endpoint recognizes, but is
reachable through `deny`: its key `os-deny_access` differs from the
endpoint's `os-access_deny`, so every `deny` takes the AssertionError
branch. -/
theorem C3_action_keys_recognized :
    (∀ t v : String,
        post_shares_1234_action (manager_allow [] "1234" t v).body = .ok (202, none))
    ∧ post_shares_1234_action (manager_access_list_req [] "1234").body = .ok (202, none)
    ∧ ∀ i : String,
        post_shares_1234_action (manager_deny [] "1234" i).body =
          .error (.assertionError (some "Unexpected share action: os-deny_access")) :=
  ⟨fun _ _ => rfl, rfl, fun _ => rfl⟩

/-- C4: username validation succeeds exactly when the string has at least 4
characters and its first 4 characters are word characters (letters, digits,
underscore) - a prefix match anchored only at the start, so anything may
follow; otherwise it fails with the `CommandError` (InvalidArgument). -/
theorem C4_username_validation (s : String) :
    validate_username s =
      if usernameValidSpec s then .ok ()
      else .error (.commandError username_exc_str) :=
  validate_username_eq s

/-- C5: for every accessType other than `ip` and `passwd`, and every
accessValue whatsoever, validation fails with the CommandError
(InvalidArgument) naming the supported types. -/
theorem C5_unsupported_access_type (t v : String)
    (hip : t ≠ "ip") (hpw : t ≠ "passwd") :
    validate_access t v = .error (.commandError access_type_exc_str) := by
  unfold validate_access
  rw [if_neg hip, if_neg hpw]

/-- C5 witness: accessType `domain` is rejected regardless of value. -/
theorem C5_unsupported_access_type_witness :
    validate_access "domain" "10.0.0.1" =
      .error (.commandError access_type_exc_str) :=
  C5_unsupported_access_type "domain" "10.0.0.1" (by decide) (by decide)

/-- C6: with no body-mutation hook registered, every action operation POSTs
to `/shares/<id>/action` with a single-key body mapping the action name to
its payload or null: allow sends `os-allow_access` with access_type and
access_to, deny sends `os-deny_access` with access_id, access_list sends
`os-access_list` mapped to null; and running an empty hook list is a no-op
on any body. -/
theorem C6_action_dispatch_bodies (shareId t v i : String) :
    manager_allow [] shareId t v =
      { method := "POST", path := "/shares/" ++ shareId ++ "/action",
        body := [("os-allow_access", some [("access_type", t), ("access_to", v)])] }
    ∧ manager_deny [] shareId i =
      { method := "POST", path := "/shares/" ++ shareId ++ "/action",
        body := [("os-deny_access", some [("access_id", i)])] }
    ∧ manager_access_list_req [] shareId =
      { method := "POST", path := "/shares/" ++ shareId ++ "/action",
        body := [("os-access_list", none)] }
    ∧ ∀ b : ActionBody, run_hooks [] b = b :=
  ⟨rfl, rfl, rfl, fun _ => rfl⟩

/-- C7: `list` requests the `/detail` path exactly when detailed is true,
for shares and share-snapshots alike; the appended query string is built
from exactly the truthy-valued search options (dropping a falsy-valued pair
never changes the query, so such pairs never appear, not even as `key=`);
and the example `{name: '', status: 'available'}` yields precisely
`?status=available`. -/
theorem C7_list_paths (detailed : Bool) (opts : List (String × PyVal))
    (so : Option (List (String × PyVal))) :
    shares_list_path detailed so =
      (if detailed then "/shares/detail" else "/shares") ++ build_query_string so
    ∧ share_snapshots_list_path detailed so =
      (if detailed then "/share-snapshots/detail" else "/share-snapshots") ++
        build_query_string so
    ∧ build_query_string (some opts) =
        build_query_string (some (opts.filter (fun kv => pyTruthy kv.2)))
    ∧ shares_list_path true
        (some [("name", PyVal.str ""), ("status", PyVal.str "available")]) =
      "/shares/detail?status=available" := by
  refine ⟨?_, ?_, build_query_string_drops_falsy opts, by decide⟩
  · cases detailed <;> rfl
  · cases detailed <;> rfl

/-- C8: decoding of the `os-access_list` response: an empty `access_list`
array decodes to the empty list (never an absent value), and a non-empty
array of uniformly-shaped records decodes to one record per element, in
order, with field names taken exactly from the server's keys. -/
theorem C8_access_list_decoding :
    access_list_decode [] = []
    ∧ ∀ al : List Payload,
        (∀ r ∈ al, r.map Prod.fst = al.headI.map Prod.fst) →
          access_list_decode al = al := by
  refine ⟨rfl, ?_⟩
  intro al h
  unfold access_list_decode
  cases al with
  | nil => rfl
  | cons r rest =>
      simp only [ne_eq, reduceCtorEq, not_false_iff, if_true]
      have hmap : ∀ v ∈ r :: rest,
          ((r :: rest).headI.map Prod.fst).zip (v.map Prod.snd) = v := by
        intro v hv
        rw [← h v hv]
        exact zip_map_fst_snd v
      calc ((r :: rest).map
              (fun value => ((r :: rest).headI.map Prod.fst).zip (value.map Prod.snd)))
          = (r :: rest).map id := List.map_congr_left hmap
        _ = r :: rest := List.map_id _

/-- C8 witness: a singleton access list of one flat record round-trips. -/
theorem C8_access_list_decoding_witness :
    access_list_decode
        [[("id", "1"), ("access_type", "ip"), ("access_to", "10.0.0.1"),
          ("state", "active")]] =
      [[("id", "1"), ("access_type", "ip"), ("access_to", "10.0.0.1"),
        ("state", "active")]] :=
  C8_access_list_decoding.2 _ (by decide)

/-- C9: for every input with exactly one `/` whose address part is a
well-formed 4-octet address (each dot-segment an integer in `[0,255]`),
validation succeeds whatever string stands after the `/`: the mask part is
never inspected or range-checked. -/
theorem C9_mask_not_inspected (s : String)
    (h2 : (pySplit '/' s.toList).length = 2)
    (h4 : (pySplit '.' (pySplit '/' s.toList).headI).length = 4)
    (hoct : ∀ seg ∈ pySplit '.' (pySplit '/' s.toList).headI, isOctetB seg = true) :
    validate_ip_range s = .ok () := by
  rw [validate_ip_range_eq]
  have hspec : ipRangeValidSpec s = true := by
    unfold ipRangeValidSpec
    simp only [h2, h4, Bool.and_eq_true, decide_eq_true_eq, List.all_eq_true]
    refine ⟨⟨by omega, rfl⟩, ?_⟩
    intro seg hseg
    simp [hoct seg hseg]
  rw [hspec]
  rfl

/-- C9 witness: with a well-formed address part, a non-numeric mask, an
out-of-range mask and an empty mask all validate successfully. -/
theorem C9_mask_not_inspected_witness :
    validate_ip_range "10.0.0.0/abc" = .ok ()
    ∧ validate_ip_range "10.0.0.0/64" = .ok ()
    ∧ validate_ip_range "10.0.0.0/" = .ok () :=
  ⟨C9_mask_not_inspected "10.0.0.0/abc" (by decide) (by decide) (by decide),
   C9_mask_not_inspected "10.0.0.0/64" (by decide) (by decide) (by decide),
   C9_mask_not_inspected "10.0.0.0/" (by decide) (by decide) (by decide)⟩

/-- C10: on the supported access types `ip` and `passwd`, the validator is
total and every failure surfaces as `CommandError` (InvalidArgument): no
`ValueError` from integer conversion (nor any other exception) escapes, and
the empty string fails with the respective CommandError instead of
crashing. -/
theorem C10_validator_totality :
    (∀ t v : String, t = "ip" ∨ t = "passwd" →
        validate_access t v = .ok ()
        ∨ ∃ m : String, validate_access t v = .error (.commandError m))
    ∧ validate_access "ip" "" = .error (.commandError ip_exc_str)
    ∧ validate_access "passwd" "" = .error (.commandError username_exc_str) := by
  refine ⟨?_, by decide, by decide⟩
  rintro t v (rfl | rfl)
  · have hip : validate_access "ip" v = validate_ip_range v := by
      unfold validate_access
      rw [if_pos rfl]
    rw [hip, validate_ip_range_eq]
    cases h : ipRangeValidSpec v
    · exact Or.inr ⟨ip_exc_str, by simp⟩
    · exact Or.inl (by simp)
  · have : validate_access "passwd" v = validate_username v := by
      unfold validate_access
      rw [if_neg (by decide), if_pos rfl]
    rw [this, validate_username_eq]
    cases h : usernameValidSpec v
    · exact Or.inr ⟨username_exc_str, by simp⟩
    · exact Or.inl (by simp)

/-- C10 witness: instantiation at accessType `ip` with a non-numeric octet
value, which surfaces as CommandError, not ValueError. -/
theorem C10_validator_totality_witness :
    validate_access "ip" "1.2.x.4" = .ok ()
    ∨ ∃ m : String, validate_access "ip" "1.2.x.4" = .error (.commandError m) :=
  C10_validator_totality.1 "ip" "1.2.x.4" (Or.inl rfl)
